import Mathlib

/-!
Verification of the EarlyAllocator bump allocator of
arceos/modules/bump_allocator/src/lib.rs.

Modelling conventions:
* usize values (addresses, sizes, counters) are modelled as Nat.  Additions
  and multiplications are modelled exactly: the allocator manages one bounded
  address region far below 2 ^ 64, so additive overflow is not a behaviour
  the specification concerns.  The unsigned subtractions that can underflow
  at runtime -- the decrement in dealloc and the difference in alloc_pages --
  are modelled with an explicit check: an underflowing call is a Rust
  arithmetic error (a panic in debug builds, a wraparound in release builds)
  and is modelled as the result none.
* The source mask expression with a power of two align, namely
  x & !(align - 1), clears the low bits of x, i.e. equals x - x % align.
  The bridging lemma land_two_pow_compl below proves this equality against
  the literal 64-bit mask, justifying the translation.
* Functions that in Rust diverge via unimplemented! -- add_memory and
  dealloc_pages -- are modelled as returning none for every input: they
  produce neither a result value nor a post-state.
-/

/-- Modelled from the spec: the error taxonomy of the external allocator
crate (a dependency of bump_allocator, not part of this repository).  The
spec names an Unsupported condition for region growth and page release and
an exhaustion condition for a full region. -/
inductive AllocError where
  | Unsupported : AllocError
  | NoMemory : AllocError
deriving DecidableEq

/-- The EarlyAllocator state.  The managed region is the interval from
start to end, the interval from start to b_pos holds the allocated bytes,
the interval from p_pos to end holds the allocated pages, and count is the
number of outstanding byte allocations.  The Rust field end is named end_
because end is a Lean keyword. -/
structure EarlyAllocator where
  start : Nat
  end_ : Nat
  b_pos : Nat
  p_pos : Nat
  count : Nat
deriving DecidableEq

namespace EarlyAllocator

/-- EarlyAllocator::new(): the all-zero state that can live in static
storage before initialization. -/
def new : EarlyAllocator :=
  ⟨0, 0, 0, 0, 0⟩

/-- BaseAllocator::init: sets start, end = start + size, b_pos = start and
p_pos = end.  The source leaves count untouched. -/
def init (s : EarlyAllocator) (start size : Nat) : EarlyAllocator :=
  { s with
    start := start
    end_ := start + size
    b_pos := start
    p_pos := start + size }

/-- BaseAllocator::add_memory is unimplemented!(): every call panics
(diverges), modelled as none; no result value and no post-state exist. -/
def add_memory (s : EarlyAllocator) (start size : Nat) :
    Option (Except AllocError Unit × EarlyAllocator) :=
  none

/-- Round x up to a multiple of align, as the source computes it for the
byte cursor: (x + align - 1) & !(align - 1).  For a power of two align the
mask clears the low bits, i.e. subtracts the remainder modulo align; the
lemma land_two_pow_compl proves this reading against the 64-bit mask. -/
def align_up (x align : Nat) : Nat :=
  (x + align - 1) - (x + align - 1) % align

/-- Mask x down to a multiple of align, as the source computes it for the
page cursor: x & !(align - 1).  For a power of two align this clears the
low bits, i.e. subtracts x % align (lemma land_two_pow_compl). -/
def align_down (x align : Nat) : Nat :=
  x - x % align

/-- ByteAllocator::alloc: rounds b_pos up to the layout alignment, returns
that address as Ok (the source has no error path here), then advances
b_pos by the layout size and increments count. -/
def alloc (s : EarlyAllocator) (size align : Nat) :
    Except AllocError Nat × EarlyAllocator :=
  let pos := align_up s.b_pos align
  (Except.ok pos, { s with b_pos := pos + size, count := s.count + 1 })

/-- ByteAllocator::dealloc: decrements count and, when it reaches zero,
resets b_pos to start.  The unsigned decrement underflows when count = 0
(a panic in debug builds, a wraparound in release builds), modelled as
none.  The source ignores the pos and layout arguments. -/
def dealloc (s : EarlyAllocator) (pos size align : Nat) :
    Option EarlyAllocator :=
  if s.count = 0 then
    none
  else
    let c := s.count - 1
    some { s with count := c, b_pos := if c = 0 then s.start else s.b_pos }

/-- ByteAllocator::total_bytes: end - start. -/
def total_bytes (s : EarlyAllocator) : Nat :=
  s.end_ - s.start

/-- ByteAllocator::used_bytes: b_pos - start. -/
def used_bytes (s : EarlyAllocator) : Nat :=
  s.b_pos - s.start

/-- ByteAllocator::available_bytes: p_pos - b_pos. -/
def available_bytes (s : EarlyAllocator) : Nat :=
  s.p_pos - s.b_pos

/-- PageAllocator::alloc_pages: size = num_pages * PAGE_SIZE; the unsigned
difference of p_pos and size underflows when size exceeds p_pos (a panic
in debug builds, a wraparound in release builds), modelled as none;
otherwise p_pos becomes that difference masked down to a multiple of
2 ^ align_pow2 and is returned as Ok. -/
def alloc_pages (PAGE_SIZE : Nat) (s : EarlyAllocator)
    (num_pages align_pow2 : Nat) :
    Option (Except AllocError Nat × EarlyAllocator) :=
  let size := num_pages * PAGE_SIZE
  if s.p_pos < size then
    none
  else
    let p := align_down (s.p_pos - size) (2 ^ align_pow2)
    some (Except.ok p, { s with p_pos := p })

/-- PageAllocator::dealloc_pages is unimplemented!(): every call panics
(diverges), modelled as none. -/
def dealloc_pages (s : EarlyAllocator) (pos num_pages : Nat) :
    Option EarlyAllocator :=
  none

/-- PageAllocator::total_pages: (end - start) / PAGE_SIZE. -/
def total_pages (PAGE_SIZE : Nat) (s : EarlyAllocator) : Nat :=
  (s.end_ - s.start) / PAGE_SIZE

/-- PageAllocator::used_pages: (end - p_pos) / PAGE_SIZE. -/
def used_pages (PAGE_SIZE : Nat) (s : EarlyAllocator) : Nat :=
  (s.end_ - s.p_pos) / PAGE_SIZE

/-- PageAllocator::available_pages: (p_pos - b_pos) / PAGE_SIZE. -/
def available_pages (PAGE_SIZE : Nat) (s : EarlyAllocator) : Nat :=
  (s.p_pos - s.b_pos) / PAGE_SIZE

/-- States reachable through the public operations, starting from the
static new state.  A call that panics (result none) has no successor. -/
inductive Reachable (PAGE_SIZE : Nat) : EarlyAllocator → Prop where
  | new : Reachable PAGE_SIZE EarlyAllocator.new
  | init (s : EarlyAllocator) (a n : Nat) :
      Reachable PAGE_SIZE s → Reachable PAGE_SIZE (EarlyAllocator.init s a n)
  | alloc (s : EarlyAllocator) (size align : Nat) :
      Reachable PAGE_SIZE s →
      Reachable PAGE_SIZE (EarlyAllocator.alloc s size align).2
  | dealloc (s : EarlyAllocator) (pos size align : Nat) (t : EarlyAllocator) :
      Reachable PAGE_SIZE s →
      EarlyAllocator.dealloc s pos size align = some t →
      Reachable PAGE_SIZE t
  | alloc_pages (s : EarlyAllocator) (num_pages align_pow2 : Nat)
      (r : Except AllocError Nat × EarlyAllocator) :
      Reachable PAGE_SIZE s →
      EarlyAllocator.alloc_pages PAGE_SIZE s num_pages align_pow2 = some r →
      Reachable PAGE_SIZE r.2

/-- Fold a list of (size, align) byte allocation requests over alloc. -/
def allocMany (s : EarlyAllocator) (reqs : List (Nat × Nat)) :
    EarlyAllocator :=
  reqs.foldl (fun t r => (EarlyAllocator.alloc t r.1 r.2).2) s

/-- Fold a list of (pos, size, align) release requests over dealloc; none
when any of the calls panics. -/
def deallocMany (s : EarlyAllocator) (reqs : List (Nat × Nat × Nat)) :
    Option EarlyAllocator :=
  reqs.foldlM (fun t r => EarlyAllocator.dealloc t r.1 r.2.1 r.2.2) s

end EarlyAllocator

/-- Bridging lemma for the translation of the source mask: for a power of
two align = 2 ^ k and a 64-bit value y, the usize expression
y & !(align - 1), whose mask !(align - 1) is the 64-bit value
2 ^ 64 - 2 ^ k, clears the low k bits of y, i.e. equals y - y % 2 ^ k. -/
theorem land_two_pow_compl (k y : Nat) (hk : k ≤ 64) (hy : y < 2 ^ 64) :
    y &&& (2 ^ 64 - 2 ^ k) = y - y % 2 ^ k := by
  have hmask : 2 ^ 64 - 2 ^ k = (2 ^ (64 - k) - 1) <<< k := by
    rw [Nat.shiftLeft_eq, Nat.sub_mul, Nat.one_mul, ← Nat.pow_add,
      Nat.sub_add_cancel hk]
  have hclear : y - y % 2 ^ k = (y >>> k) <<< k := by
    rw [Nat.shiftLeft_eq, Nat.shiftRight_eq_div_pow]
    have hdm := Nat.div_add_mod y (2 ^ k)
    rw [Nat.mul_comm (2 ^ k) (y / 2 ^ k)] at hdm
    omega
  rw [hmask, hclear]
  apply Nat.eq_of_testBit_eq
  intro i
  rw [Nat.testBit_land, Nat.testBit_shiftLeft, Nat.testBit_shiftLeft,
    Nat.testBit_shiftRight, Nat.testBit_two_pow_sub_one]
  by_cases hik : k ≤ i
  · have hki : k + (i - k) = i := by omega
    rw [hki]
    by_cases hi64 : i < 64
    · have h1 : i - k < 64 - k := by omega
      simp [hik, h1]
    · have hyb : y.testBit i = false :=
        Nat.testBit_lt_two_pow
          (lt_of_lt_of_le hy (Nat.pow_le_pow_right (by omega) (by omega)))
      simp [hyb]
  · simp [hik]

namespace EarlyAllocator

/-- Helper: align_up x a is a multiple of a. -/
theorem align_up_emod (x a : Nat) : align_up x a % a = 0 := by
  unfold align_up
  have hdm := Nat.div_add_mod (x + a - 1) a
  have hx : x + a - 1 - (x + a - 1) % a = a * ((x + a - 1) / a) := by omega
  rw [hx, Nat.mul_mod_right]

/-- Helper: align_up does not decrease x when the alignment is positive. -/
theorem le_align_up (x a : Nat) (ha : 0 < a) : x ≤ align_up x a := by
  unfold align_up
  have hlt : (x + a - 1) % a < a := Nat.mod_lt _ ha
  omega

/-- Helper: align_up x a stays below x + a when the alignment is
positive, so it is the least multiple of a at or above x. -/
theorem align_up_lt (x a : Nat) (ha : 0 < a) : align_up x a < x + a := by
  unfold align_up
  omega

/-- Helper: align_down x a is a multiple of a. -/
theorem align_down_emod (x a : Nat) : align_down x a % a = 0 := by
  unfold align_down
  have hdm := Nat.div_add_mod x a
  have hx : x - x % a = a * (x / a) := by omega
  rw [hx, Nat.mul_mod_right]

/-- Helper: align_down fixes multiples of a. -/
theorem align_down_of_dvd (x a : Nat) (h : a ∣ x) : align_down x a = x := by
  unfold align_down
  rw [Nat.mod_eq_zero_of_dvd h]
  omega

/-- C2: for every state and every layout whose alignment is a power of
two, alloc returns Ok of the old b_pos rounded up to the next multiple of
the alignment (the least multiple of align at or above b_pos); in the
post-state b_pos is that address plus the layout size and count has grown
by one, while start, end and p_pos are unchanged; no error is ever
returned. -/
theorem alloc_semantics (s : EarlyAllocator) (size align k : Nat)
    (h : align = 2 ^ k) :
    (alloc s size align).1 = Except.ok (align_up s.b_pos align) ∧
    align_up s.b_pos align % align = 0 ∧
    s.b_pos ≤ align_up s.b_pos align ∧
    align_up s.b_pos align < s.b_pos + align ∧
    (alloc s size align).2.b_pos = align_up s.b_pos align + size ∧
    (alloc s size align).2.count = s.count + 1 ∧
    (alloc s size align).2.start = s.start ∧
    (alloc s size align).2.end_ = s.end_ ∧
    (alloc s size align).2.p_pos = s.p_pos := by
  have ha : 0 < align := h ▸ Nat.pos_pow_of_pos k (by omega)
  exact ⟨rfl, align_up_emod _ _, le_align_up _ _ ha, align_up_lt _ _ ha,
    rfl, rfl, rfl, rfl, rfl⟩

/-- Witness for C2 at a concrete state and layout (size 4, align 8). -/
theorem alloc_semantics_witness :
    (8 : Nat) = 2 ^ 3 ∧
    ((alloc ⟨0x1000, 0x3000, 0x1005, 0x3000, 1⟩ 4 8).1 =
        Except.ok (align_up 0x1005 8) ∧
      align_up 0x1005 8 % 8 = 0 ∧
      (0x1005 : Nat) ≤ align_up 0x1005 8 ∧
      align_up 0x1005 8 < 0x1005 + 8 ∧
      (alloc ⟨0x1000, 0x3000, 0x1005, 0x3000, 1⟩ 4 8).2.b_pos =
        align_up 0x1005 8 + 4 ∧
      (alloc ⟨0x1000, 0x3000, 0x1005, 0x3000, 1⟩ 4 8).2.count = 1 + 1 ∧
      (alloc ⟨0x1000, 0x3000, 0x1005, 0x3000, 1⟩ 4 8).2.start = 0x1000 ∧
      (alloc ⟨0x1000, 0x3000, 0x1005, 0x3000, 1⟩ 4 8).2.end_ = 0x3000 ∧
      (alloc ⟨0x1000, 0x3000, 0x1005, 0x3000, 1⟩ 4 8).2.p_pos = 0x3000) :=
  ⟨by decide, alloc_semantics ⟨0x1000, 0x3000, 0x1005, 0x3000, 1⟩ 4 8 3 (by decide)⟩

/-- C3: for every state with count at least 1, dealloc succeeds and
decrements count by one; when count thereby reaches zero it resets b_pos
to start, otherwise b_pos and hence used_bytes are unchanged; start, end
and p_pos are unchanged in every case. -/
theorem dealloc_semantics (s : EarlyAllocator) (pos size align : Nat)
    (h : 1 ≤ s.count) :
    ∃ s', dealloc s pos size align = some s' ∧
      s'.count = s.count - 1 ∧
      s'.start = s.start ∧ s'.end_ = s.end_ ∧ s'.p_pos = s.p_pos ∧
      (s.count = 1 → s'.b_pos = s.start) ∧
      (2 ≤ s.count → s'.b_pos = s.b_pos ∧ used_bytes s' = used_bytes s) := by
  have h0 : ¬ s.count = 0 := by omega
  refine ⟨{ s with count := s.count - 1, b_pos := if s.count - 1 = 0 then s.start else s.b_pos }, ?_, rfl, rfl, rfl, rfl, ?_, ?_⟩
  · simp [dealloc, h0]
  · intro h1
    simp [h1]
  · intro h2
    have hne : ¬ s.count - 1 = 0 := by omega
    exact ⟨by simp [hne], by simp [used_bytes, hne]⟩

/-- Witness for C3 at a concrete state with two outstanding allocations. -/
theorem dealloc_semantics_witness :
    1 ≤ (2 : Nat) ∧
    (∃ s', dealloc ⟨0x1000, 0x3000, 0x1010, 0x3000, 2⟩ 7 0 0 = some s' ∧
      s'.count = 2 - 1 ∧
      s'.start = 0x1000 ∧ s'.end_ = 0x3000 ∧ s'.p_pos = 0x3000 ∧
      ((2 : Nat) = 1 → s'.b_pos = 0x1000) ∧
      (2 ≤ (2 : Nat) → s'.b_pos = 0x1010 ∧
        used_bytes s' = used_bytes ⟨0x1000, 0x3000, 0x1010, 0x3000, 2⟩)) :=
  ⟨by decide, dealloc_semantics ⟨0x1000, 0x3000, 0x1010, 0x3000, 2⟩ 7 0 0 (by decide)⟩

/-- C8: immediately after init with start address a and size n, the
accessors report total_bytes = n, used_bytes = 0, available_bytes = n and
total_pages = n / PAGE_SIZE, whatever the prior state was. -/
theorem init_accounting (PAGE_SIZE : Nat) (s : EarlyAllocator) (a n : Nat) :
    total_bytes (init s a n) = n ∧
    used_bytes (init s a n) = 0 ∧
    available_bytes (init s a n) = n ∧
    total_pages PAGE_SIZE (init s a n) = n / PAGE_SIZE := by
  refine ⟨?_, ?_, ?_, ?_⟩ <;>
    simp [init, total_bytes, used_bytes, available_bytes, total_pages]

/-- C9: the unsigned decrement of count in dealloc underflows exactly when
count = 0 (a panic in debug builds, a wraparound in release builds),
modelled as the call returning none; when count is at least 1 the
subtraction is safe and dealloc returns a state normally. -/
theorem dealloc_underflow_iff (s : EarlyAllocator) (pos size align : Nat) :
    (s.count = 0 → dealloc s pos size align = none) ∧
    (1 ≤ s.count →
      ∃ s', dealloc s pos size align = some s' ∧ s'.count = s.count - 1) := by
  constructor
  · intro h
    rw [dealloc, if_pos h]
  · intro h
    exact ⟨_, by rw [dealloc, if_neg (by omega)], rfl⟩

/-- Witness for C9: dealloc panics on a drained concrete state and
returns normally on a state with three outstanding allocations. -/
theorem dealloc_underflow_iff_witness :
    dealloc ⟨0, 0x100, 0, 0x100, 0⟩ 0 0 0 = none ∧
    (∃ s', dealloc ⟨0, 0x100, 8, 0x100, 3⟩ 0 0 0 = some s' ∧
      s'.count = 3 - 1) :=
  ⟨(dealloc_underflow_iff ⟨0, 0x100, 0, 0x100, 0⟩ 0 0 0).1 (by decide),
   (dealloc_underflow_iff ⟨0, 0x100, 8, 0x100, 3⟩ 0 0 0).2 (by decide)⟩

/-- C10: the unsigned difference of p_pos and num_pages * PAGE_SIZE in
alloc_pages underflows exactly when the requested size exceeds p_pos (a
panic in debug builds, a wraparound in release builds), modelled as the
call returning none; when num_pages * PAGE_SIZE is at most p_pos the
subtraction is safe and the call returns normally. -/
theorem alloc_pages_underflow_iff (PAGE_SIZE : Nat) (s : EarlyAllocator)
    (num_pages align_pow2 : Nat) :
    (s.p_pos < num_pages * PAGE_SIZE →
      alloc_pages PAGE_SIZE s num_pages align_pow2 = none) ∧
    (num_pages * PAGE_SIZE ≤ s.p_pos →
      ∃ r, alloc_pages PAGE_SIZE s num_pages align_pow2 = some r) := by
  constructor
  · intro h
    rw [alloc_pages, if_pos h]
  · intro h
    exact ⟨_, by rw [alloc_pages, if_neg (Nat.not_lt.mpr h)]⟩

/-- Witness for C10: a four page request on a region whose page cursor is
at 0x3000 panics; a two page request returns normally. -/
theorem alloc_pages_underflow_iff_witness :
    alloc_pages 0x1000 ⟨0, 0x3000, 0, 0x3000, 0⟩ 4 12 = none ∧
    (∃ r, alloc_pages 0x1000 ⟨0, 0x3000, 0, 0x3000, 0⟩ 2 12 = some r) :=
  ⟨(alloc_pages_underflow_iff 0x1000 ⟨0, 0x3000, 0, 0x3000, 0⟩ 4 12).1 (by decide),
   (alloc_pages_underflow_iff 0x1000 ⟨0, 0x3000, 0, 0x3000, 0⟩ 2 12).2 (by decide)⟩

/-- C4 counterexample: from the reachable active state produced by
init(0x1000, 0x2000) with PAGE_SIZE 0x1000, a four page request exceeds
p_pos = 0x3000, so the unsigned subtraction underflows and the call
panics (none) instead of returning Success of a new p_pos. -/
theorem alloc_pages_underflow_no_success :
    Reachable 0x1000 (init EarlyAllocator.new 0x1000 0x2000) ∧
    alloc_pages 0x1000 (init EarlyAllocator.new 0x1000 0x2000) 4 12 = none :=
  ⟨Reachable.init EarlyAllocator.new 0x1000 0x2000 Reachable.new, rfl⟩

/-- C4 amended: provided the requested size num_pages * PAGE_SIZE does
not exceed p_pos, alloc_pages returns Success of the new p_pos, which is
the old p_pos minus the size, masked down to a multiple of
2 ^ align_pow2; start, end, b_pos and count are unchanged. -/
theorem alloc_pages_semantics (PAGE_SIZE : Nat) (s : EarlyAllocator)
    (num_pages align_pow2 : Nat) (h : num_pages * PAGE_SIZE ≤ s.p_pos) :
    ∃ p s',
      alloc_pages PAGE_SIZE s num_pages align_pow2 = some (Except.ok p, s') ∧
      p = align_down (s.p_pos - num_pages * PAGE_SIZE) (2 ^ align_pow2) ∧
      p % 2 ^ align_pow2 = 0 ∧
      s'.p_pos = p ∧ s'.start = s.start ∧ s'.end_ = s.end_ ∧
      s'.b_pos = s.b_pos ∧ s'.count = s.count := by
  refine ⟨align_down (s.p_pos - num_pages * PAGE_SIZE) (2 ^ align_pow2),
    { s with p_pos := align_down (s.p_pos - num_pages * PAGE_SIZE) (2 ^ align_pow2) },
    ?_, rfl, align_down_emod _ _, rfl, rfl, rfl, rfl, rfl⟩
  simp [alloc_pages, Nat.not_lt.mpr h]

/-- Witness for the amended C4 at a concrete 2-page request. -/
theorem alloc_pages_semantics_witness :
    (2 : Nat) * 0x1000 ≤ (0x3000 : Nat) ∧
    (∃ p s',
      alloc_pages 0x1000 ⟨0x1000, 0x3000, 0x1008, 0x3000, 1⟩ 2 12 =
        some (Except.ok p, s') ∧
      p = align_down (0x3000 - 2 * 0x1000) (2 ^ 12) ∧
      p % 2 ^ 12 = 0 ∧
      s'.p_pos = p ∧ s'.start = 0x1000 ∧ s'.end_ = 0x3000 ∧
      s'.b_pos = 0x1008 ∧ s'.count = 1) :=
  ⟨by decide,
   alloc_pages_semantics 0x1000 ⟨0x1000, 0x3000, 0x1008, 0x3000, 1⟩ 2 12 (by decide)⟩

/-- C5 counterexample: add_memory at a concrete state panics (none) and
in particular does not return an Unsupported error result value;
dealloc_pages likewise panics. -/
theorem add_memory_no_error_result :
    add_memory EarlyAllocator.new 0 0x1000 = none ∧
    add_memory EarlyAllocator.new 0 0x1000 ≠
      some (Except.error AllocError.Unsupported, EarlyAllocator.new) ∧
    dealloc_pages EarlyAllocator.new 0x2000 1 = none := by
  refine ⟨rfl, ?_, rfl⟩
  simp [add_memory]

/-- C5 amended: the two permanently unsupported operations, add_memory
and dealloc_pages, are unimplemented: every call panics (diverges),
returning no result value at all -- in particular not an Unsupported
error value -- and producing no post-state, so no field is ever
mutated. -/
theorem unsupported_ops_diverge (s : EarlyAllocator)
    (a n pos num_pages : Nat) :
    add_memory s a n = none ∧ dealloc_pages s pos num_pages = none :=
  ⟨rfl, rfl⟩

/-- C6 counterexample: with PAGE_SIZE 0x1000, from the reachable state
after init(0, 0x7000) -- seven pages available -- a one page request with
align_pow2 = 14 masks the page cursor from 0x6000 down to 0x4000, so
available_pages drops from 7 to 4: a decrease of 3, not of k = 1. -/
theorem alloc_pages_overaligned_decrease :
    1 ≤ available_pages 0x1000 (init EarlyAllocator.new 0 0x7000) ∧
    alloc_pages 0x1000 (init EarlyAllocator.new 0 0x7000) 1 14 =
      some (Except.ok 0x4000, ⟨0, 0x7000, 0, 0x4000, 0⟩) ∧
    available_pages 0x1000 (init EarlyAllocator.new 0 0x7000) = 7 ∧
    available_pages 0x1000 ⟨0, 0x7000, 0, 0x4000, 0⟩ = 4 ∧
    available_pages 0x1000 (init EarlyAllocator.new 0 0x7000) -
      available_pages 0x1000 ⟨0, 0x7000, 0, 0x4000, 0⟩ ≠ 1 := by
  refine ⟨by decide, ?_, rfl, rfl, by decide⟩
  rfl

/-- C6 amended: for every state, every num_pages at least 1 whose pages
fit in the free zone (num_pages * PAGE_SIZE at most p_pos - b_pos, i.e.
num_pages at most available_pages), and every align_pow2 whose alignment
the cursor difference already satisfies (2 ^ align_pow2 divides
p_pos - num_pages * PAGE_SIZE), alloc_pages returns an address strictly
below the previous p_pos, aligned to 2 ^ align_pow2, and available_pages
decreases by exactly num_pages. -/
theorem alloc_pages_available_decrease (PAGE_SIZE : Nat)
    (s : EarlyAllocator) (num_pages align_pow2 : Nat)
    (hPS : 0 < PAGE_SIZE) (hk : 1 ≤ num_pages)
    (hfit : num_pages * PAGE_SIZE ≤ s.p_pos - s.b_pos)
    (hal : 2 ^ align_pow2 ∣ s.p_pos - num_pages * PAGE_SIZE) :
    ∃ p s',
      alloc_pages PAGE_SIZE s num_pages align_pow2 = some (Except.ok p, s') ∧
      p < s.p_pos ∧ p % 2 ^ align_pow2 = 0 ∧
      available_pages PAGE_SIZE s' + num_pages = available_pages PAGE_SIZE s ∧
      available_pages PAGE_SIZE s' = available_pages PAGE_SIZE s - num_pages := by
  have hmc : num_pages * PAGE_SIZE = PAGE_SIZE * num_pages := Nat.mul_comm _ _
  have hpos : 0 < num_pages * PAGE_SIZE := Nat.mul_pos hk hPS
  have hle : num_pages * PAGE_SIZE ≤ s.p_pos := by omega
  have hb : s.b_pos + num_pages * PAGE_SIZE ≤ s.p_pos := by omega
  have hp : align_down (s.p_pos - num_pages * PAGE_SIZE) (2 ^ align_pow2) =
      s.p_pos - num_pages * PAGE_SIZE := align_down_of_dvd _ _ hal
  have hfit' : PAGE_SIZE * num_pages ≤ s.p_pos - s.b_pos := by omega
  have hdiv : (s.p_pos - s.b_pos - PAGE_SIZE * num_pages) / PAGE_SIZE =
      (s.p_pos - s.b_pos) / PAGE_SIZE - num_pages :=
    Nat.sub_mul_div _ _ _ hfit'
  have hkle : num_pages ≤ (s.p_pos - s.b_pos) / PAGE_SIZE :=
    (Nat.le_div_iff_mul_le hPS).mpr hfit
  have harg : s.p_pos - num_pages * PAGE_SIZE - s.b_pos =
      s.p_pos - s.b_pos - PAGE_SIZE * num_pages := by omega
  refine ⟨align_down (s.p_pos - num_pages * PAGE_SIZE) (2 ^ align_pow2),
    { s with p_pos := align_down (s.p_pos - num_pages * PAGE_SIZE) (2 ^ align_pow2) },
    ?_, ?_, align_down_emod _ _, ?_, ?_⟩
  · simp [alloc_pages, Nat.not_lt.mpr hle]
  · rw [hp]
    omega
  · simp only [available_pages]
    rw [hp, harg, hdiv]
    omega
  · simp only [available_pages]
    rw [hp, harg, hdiv]

/-- Witness for the amended C6: one page from a seven page region at the
native page alignment, available_pages drops from 7 to 6. -/
theorem alloc_pages_available_decrease_witness :
    0 < (0x1000 : Nat) ∧ 1 ≤ (1 : Nat) ∧
    (1 : Nat) * 0x1000 ≤ (0x7000 : Nat) - 0 ∧
    (2 : Nat) ^ 12 ∣ (0x7000 : Nat) - 1 * 0x1000 ∧
    (∃ p s',
      alloc_pages 0x1000 ⟨0, 0x7000, 0, 0x7000, 0⟩ 1 12 =
        some (Except.ok p, s') ∧
      p < 0x7000 ∧ p % 2 ^ 12 = 0 ∧
      available_pages 0x1000 s' + 1 =
        available_pages 0x1000 ⟨0, 0x7000, 0, 0x7000, 0⟩ ∧
      available_pages 0x1000 s' =
        available_pages 0x1000 ⟨0, 0x7000, 0, 0x7000, 0⟩ - 1) :=
  ⟨by decide, by decide, by decide, by norm_num,
   alloc_pages_available_decrease 0x1000 ⟨0, 0x7000, 0, 0x7000, 0⟩ 1 12
     (by decide) (by decide) (by decide) (by norm_num)⟩

/-- C1: from the reachable, correctly partitioned active state after
init(0x1000, 0x10) with PAGE_SIZE 0x1000, allocating 0x100 bytes returns
Ok(0x1000) -- no error -- yet leaves b_pos = 0x1100 strictly above
p_pos = 0x1010, silently breaking the three-zone partition: the source
performs no cursor-crossing check in alloc. -/
theorem alloc_crossing_demo :
    Reachable 0x1000 (init EarlyAllocator.new 0x1000 0x10) ∧
    (init EarlyAllocator.new 0x1000 0x10).b_pos ≤
      (init EarlyAllocator.new 0x1000 0x10).p_pos ∧
    (alloc (init EarlyAllocator.new 0x1000 0x10) 0x100 1).1 =
      Except.ok 0x1000 ∧
    Reachable 0x1000 (alloc (init EarlyAllocator.new 0x1000 0x10) 0x100 1).2 ∧
    (alloc (init EarlyAllocator.new 0x1000 0x10) 0x100 1).2.p_pos <
      (alloc (init EarlyAllocator.new 0x1000 0x10) 0x100 1).2.b_pos :=
  ⟨Reachable.init EarlyAllocator.new 0x1000 0x10 Reachable.new, by decide, rfl,
   Reachable.alloc (init EarlyAllocator.new 0x1000 0x10) 0x100 1
     (Reachable.init EarlyAllocator.new 0x1000 0x10 Reachable.new),
   by decide⟩

/-- Helper: folding byte allocations never moves start. -/
theorem allocMany_start (reqs : List (Nat × Nat)) (s : EarlyAllocator) :
    (allocMany s reqs).start = s.start := by
  induction reqs generalizing s with
  | nil => rfl
  | cons r l ih =>
    show (allocMany (alloc s r.1 r.2).2 l).start = s.start
    rw [ih]
    rfl

/-- Helper: folding byte allocations adds their number to count. -/
theorem allocMany_count (reqs : List (Nat × Nat)) (s : EarlyAllocator) :
    (allocMany s reqs).count = s.count + reqs.length := by
  induction reqs generalizing s with
  | nil => rfl
  | cons r l ih =>
    show (allocMany (alloc s r.1 r.2).2 l).count = s.count + (r :: l).length
    rw [ih]
    show s.count + 1 + l.length = s.count + (l.length + 1)
    omega

/-- Helper: releasing exactly count times drains the byte region: every
dealloc call succeeds, count ends at 0 and, as soon as at least one
release happened, b_pos is back at start; start, end and p_pos are
untouched throughout. -/
theorem deallocMany_drain (reqs : List (Nat × Nat × Nat))
    (s : EarlyAllocator) (h : s.count = reqs.length) :
    ∃ s', deallocMany s reqs = some s' ∧ s'.count = 0 ∧
      s'.start = s.start ∧ s'.end_ = s.end_ ∧ s'.p_pos = s.p_pos ∧
      (reqs = [] → s' = s) ∧ (reqs ≠ [] → s'.b_pos = s.start) := by
  induction reqs generalizing s with
  | nil =>
    exact ⟨s, rfl, by simpa using h, rfl, rfl, rfl, fun _ => rfl,
      fun hne => absurd rfl hne⟩
  | cons r l ih =>
    have h0 : ¬ s.count = 0 := by simp [h]
    have hstep : dealloc s r.1 r.2.1 r.2.2 =
        some { s with count := s.count - 1, b_pos := if s.count - 1 = 0 then s.start else s.b_pos } := by
      simp [dealloc, h0]
    have h1 : ({ s with count := s.count - 1, b_pos := if s.count - 1 = 0 then s.start else s.b_pos } : EarlyAllocator).count = l.length := by
      show s.count - 1 = l.length
      have : (r :: l).length = l.length + 1 := rfl
      omega
    obtain ⟨s', hrun, hc, hstart, hend, hpp, hnil, hne⟩ := ih _ h1
    refine ⟨s', ?_, hc, hstart, hend, hpp, ?_, ?_⟩
    · show (r :: l).foldlM (fun t q => dealloc t q.1 q.2.1 q.2.2) s = some s'
      rw [List.foldlM_cons, hstep]
      simpa [deallocMany] using hrun
    · intro hcontra
      exact absurd hcontra (by simp)
    · intro hcons
      by_cases hl : l = []
      · subst hl
        rw [hnil rfl]
        have hone : s.count = 1 := by simpa using h
        show (if s.count - 1 = 0 then s.start else s.b_pos) = s.start
        simp [hone]
      · rw [hne hl]

/-- C7: starting from a freshly initialized region at start address a,
any N byte allocations followed by N dealloc calls with arbitrary
arguments and in arbitrary order all succeed and leave used_bytes at 0
with the byte cursor back at a; the next alloc at a power of two
alignment then returns exactly a rounded up to the next multiple of that
alignment. -/
theorem drain_roundtrip (a n : Nat) (L : List (Nat × Nat))
    (D : List (Nat × Nat × Nat)) (size align k : Nat)
    (hlen : D.length = L.length) (hal : align = 2 ^ k) :
    ∃ s',
      deallocMany (allocMany (init EarlyAllocator.new a n) L) D = some s' ∧
      used_bytes s' = 0 ∧
      s'.b_pos = a ∧
      (alloc s' size align).1 = Except.ok (align_up a align) ∧
      align_up a align % align = 0 ∧ a ≤ align_up a align ∧
      align_up a align < a + align := by
  have ha : 0 < align := hal ▸ Nat.pos_pow_of_pos k (by omega)
  have hc0 : (init EarlyAllocator.new a n).count = 0 := rfl
  have hst : (allocMany (init EarlyAllocator.new a n) L).start = a := by
    rw [allocMany_start]
    rfl
  have hcnt : (allocMany (init EarlyAllocator.new a n) L).count = D.length := by
    rw [allocMany_count, hc0, hlen, Nat.zero_add]
  obtain ⟨s', hrun, hc, hstart, hend, hpp, hnil, hne⟩ :=
    deallocMany_drain D (allocMany (init EarlyAllocator.new a n) L) hcnt
  have hbp : s'.b_pos = a := by
    by_cases hD : D = []
    · have hL : L = [] := by
        cases L with
        | nil => rfl
        | cons q m => rw [hD] at hlen; simp at hlen
      rw [hnil hD, hL]
      rfl
    · rw [hne hD, hst]
  refine ⟨s', hrun, ?_, hbp, ?_, align_up_emod _ _, le_align_up _ _ ha,
    align_up_lt _ _ ha⟩
  · simp only [used_bytes]
    rw [hbp, hstart, hst]
    omega
  · show Except.ok (align_up s'.b_pos align) = Except.ok (align_up a align)
    rw [hbp]

/-- Witness for C7: two allocations then two releases from a fresh
region at 0x1000; the next allocation at alignment 8 returns 0x1000. -/
theorem drain_roundtrip_witness :
    ([(0x1000, 8, 8), (0x1008, 4, 4)] : List (Nat × Nat × Nat)).length =
      ([(8, 8), (4, 4)] : List (Nat × Nat)).length ∧
    (8 : Nat) = 2 ^ 3 ∧
    (∃ s',
      deallocMany (allocMany (init EarlyAllocator.new 0x1000 0x2000)
        [(8, 8), (4, 4)]) [(0x1000, 8, 8), (0x1008, 4, 4)] = some s' ∧
      used_bytes s' = 0 ∧
      s'.b_pos = 0x1000 ∧
      (alloc s' 16 8).1 = Except.ok (align_up 0x1000 8) ∧
      align_up 0x1000 8 % 8 = 0 ∧ (0x1000 : Nat) ≤ align_up 0x1000 8 ∧
      align_up 0x1000 8 < 0x1000 + 8) :=
  ⟨by decide, by decide,
   drain_roundtrip 0x1000 0x2000 [(8, 8), (4, 4)]
     [(0x1000, 8, 8), (0x1008, 4, 4)] 16 8 3 (by decide) (by decide)⟩

end EarlyAllocator
